import Mathlib

/-!
Verification of the window-capture automation script
(`src/script/example/capture.py`): a shallow embedding of its data model,
input sequencing, detection pipeline and run/pause loop, with theorems
settling the specification's claims.

Modelling conventions:
* Python floats and float literals (`0.1`, `10.0`, sleep durations) are
  modelled as exact rationals (`ℚ`).
* Pixel coordinates and sizes are `ℕ` (frame-local) or `ℤ` (screen
  coordinates, which may be negative on multi-monitor setups).
* Side-effecting calls (`time.sleep`, `pyautogui.mouseDown`, `cv2.imshow`,
  ...) are modelled as emitted events in a trace, in program order.
* External library calls (`cv2.threshold`, `cv2.boundingRect`,
  `cv2.drawContours`, `pyautogui`, `keyboard.is_pressed`) are embedded
  following their documented semantics, since the script's behaviour is
  defined by them.
-/

/-- The button-kind enumeration of the script (`class IrisuButton(Enum)`). -/
inductive IrisuButton
  | LClick
  | RClick
  | Esc
  deriving DecidableEq, Repr

/-- Observable synthetic-input events and blocking delays, in the order the
script performs them.  `mouseDown`/`mouseUp` model the `pyautogui` calls
(button name, screen coordinates); `keyDown`/`keyUp` model key events;
`sleepEv t` models `time.sleep(t)`. -/
inductive InpEv
  | sleepEv (t : ℚ)
  | mouseDown (btn : String) (x y : ℤ)
  | mouseUp (btn : String) (x y : ℤ)
  | keyDown (k : String)
  | keyUp (k : String)
  deriving DecidableEq, Repr

/-- `press_button(button_type, x, y, start_sleep_time, up_sleep_time)`:
sleep, then a down event matching the button kind, sleep, then the matching
up event.  `pyautogui.mouseDown(x, y)` presses the left button; the
`RClick` branch passes `button='right'`; the `Esc` branch sends
`keyDown('esc')`/`keyUp('esc')` with no coordinates. -/
def press_button (button_type : IrisuButton) (x y : ℤ)
    (start_sleep_time up_sleep_time : ℚ) : List InpEv :=
  InpEv.sleepEv start_sleep_time ::
  match button_type with
  | IrisuButton.LClick =>
      [InpEv.mouseDown "left" x y, InpEv.sleepEv up_sleep_time,
       InpEv.mouseUp "left" x y]
  | IrisuButton.RClick =>
      [InpEv.mouseDown "right" x y, InpEv.sleepEv up_sleep_time,
       InpEv.mouseUp "right" x y]
  | IrisuButton.Esc =>
      [InpEv.keyDown "esc", InpEv.sleepEv up_sleep_time,
       InpEv.keyUp "esc"]

/-- Is an input event a down event (mouse button or key)? -/
def InpEv.isDown : InpEv → Bool
  | InpEv.mouseDown _ _ _ => true
  | InpEv.keyDown _ => true
  | _ => false

/-- Is an input event an up event (mouse button or key)? -/
def InpEv.isUp : InpEv → Bool
  | InpEv.mouseUp _ _ _ => true
  | InpEv.keyUp _ => true
  | _ => false

/-- `u` is the matching release for the down event `d`: same button and
coordinates, or same key. -/
def InpEv.matchesUp : InpEv → InpEv → Bool
  | InpEv.mouseDown b x y, InpEv.mouseUp b' x' y' =>
      decide (b = b') && decide (x = x') && decide (y = y')
  | InpEv.keyDown k, InpEv.keyUp k' => decide (k = k')
  | _, _ => false

/-- Coordinate carried by a mouse event, if any. -/
def InpEv.pos : InpEv → Option (ℤ × ℤ)
  | InpEv.mouseDown _ x y => some (x, y)
  | InpEv.mouseUp _ x y => some (x, y)
  | _ => none

/-- `irisu_get_title_pos(center_x, center_y)`: the fixed list of title-menu
candidate positions relative to the window centre. -/
def irisu_get_title_pos (center_x center_y : ℤ) : List (ℤ × ℤ) :=
  [(center_x, center_y + 20),
   (center_x + 100, center_y + 100),
   (center_x + 150, center_y + 150),
   (center_x, center_y - 150)]

/-- The input trace of the startup sequence: one left click at
`title_positions[0]` with a 1 s pre-delay and 0.1 s hold
(`press_button(IrisuButton.LClick, title_positions[0][0],
title_positions[0][1], 1, 0.1)`), followed by `time.sleep(3)`. -/
def startupTrace (center_x center_y : ℤ) : List InpEv :=
  let title_positions := irisu_get_title_pos center_x center_y
  let p0 := title_positions.headI
  press_button IrisuButton.LClick p0.1 p0.2 1 (1/10) ++ [InpEv.sleepEv 3]

/-- A frame-local point, as stored in an OpenCV contour. -/
structure Pt where
  x : ℕ
  y : ℕ
  deriving DecidableEq, Repr

/-- An axis-aligned rectangle `(x, y, w, h)` as returned by
`cv2.boundingRect`. -/
structure Rect where
  x : ℕ
  y : ℕ
  w : ℕ
  h : ℕ
  deriving DecidableEq, Repr

/-- `cv2.boundingRect(points)`: the minimal up-right rectangle containing
the point set — `(min x, min y, max x - min x + 1, max y - min y + 1)`
for a non-empty set (the rectangle covers the points inclusively, hence
the `+ 1`). -/
def boundingRect : List Pt → Rect
  | [] => ⟨0, 0, 0, 0⟩
  | p :: ps =>
      let minX := ps.foldl (fun a q => min a q.x) p.x
      let maxX := ps.foldl (fun a q => max a q.x) p.x
      let minY := ps.foldl (fun a q => min a q.y) p.y
      let maxY := ps.foldl (fun a q => max a q.y) p.y
      ⟨minX, minY, maxX - minX + 1, maxY - minY + 1⟩

/-- `aspect_ratio = float(w) / h`, with float division modelled as exact
rational division. -/
def aspect_ratio (w h : ℕ) : ℚ := (w : ℚ) / (h : ℚ)

/-- The contour filter of the main loop:
`0.1 < aspect_ratio < 10.0 and w > 50 and h > 50`
(the float literals `0.1` and `10.0` modelled as the rationals `1/10`
and `10`). -/
def keepRect (r : Rect) : Bool :=
  decide ((1 : ℚ)/10 < aspect_ratio r.w r.h) &&
  decide (aspect_ratio r.w r.h < (10 : ℚ)) &&
  decide (r.w > 50) && decide (r.h > 50)

/-- The rectangles the detection loop reports (`print`s), as a function of
the simplified contours (`approx = cv2.approxPolyDP(...)` for each
extracted contour): the bounding rectangle of each simplified contour,
kept when it passes the filter. -/
def detect (approxContours : List (List Pt)) : List Rect :=
  (approxContours.map boundingRect).filter keepRect

/-- `cv2.threshold(src, thresh, maxval, cv2.THRESH_BINARY)` per pixel:
OpenCV's `THRESH_BINARY` maps an intensity to `maxval` when it is
strictly greater than `thresh`, and to `0` otherwise. -/
def thresholdBinary (thresh maxval v : ℕ) : ℕ :=
  if v > thresh then maxval else 0

/-- A captured frame after conversion to BGR: rows of `(b, g, r)` pixel
triples. -/
abbrev Frame : Type := List (List (ℕ × ℕ × ℕ))

/-- `cv2.cvtColor(..., cv2.COLOR_BGR2GRAY)` per pixel: OpenCV's documented
conversion `Y = 0.299 R + 0.587 G + 0.114 B`, rounded to the nearest
integer. -/
def grayVal (p : ℕ × ℕ × ℕ) : ℕ :=
  (round ((299 * (p.2.2 : ℚ) + 587 * (p.2.1 : ℚ) + 114 * (p.1 : ℚ)) / 1000)).toNat

/-- The binarisation stage of the pipeline:
`cv2.threshold(gray_frame, 200, 255, cv2.THRESH_BINARY)` applied to every
pixel of the grayscale frame. -/
def threshFrame (gray_frame : List (List ℕ)) : List (List ℕ) :=
  gray_frame.map (fun row => row.map (thresholdBinary 200 255))

/-- Write colour `c` at point `p` of a frame (row `p.y`, column `p.x`);
out-of-range writes leave the frame unchanged. -/
def setPixel (f : Frame) (p : Pt) (c : ℕ × ℕ × ℕ) : Frame :=
  f.set p.y ((f.getD p.y []).set p.x c)

/-- `cv2.drawContours(frame, [approx], 0, (0,255,0), 2)` writes the colour
`(0,255,0)` (green, in BGR) along the polygon through the vertices of
`approx`; modelled at the vertex pixels themselves, which the drawn
polyline always covers. -/
def drawContourVerts (f : Frame) (approx : List Pt) : Frame :=
  approx.foldl (fun acc p => setPixel acc p (0, 255, 0)) f

/-- The body of the contour loop, folded over all simplified contours:
accumulates the reported rectangles and, for each contour passing the
filter, annotates the frame **in place** with `cv2.drawContours`. Returns
the reported rectangles and the (possibly mutated) frame. -/
def processFrame : Frame → List (List Pt) → List Rect × Frame
  | frame, [] => ([], frame)
  | frame, approx :: rest =>
      if keepRect (boundingRect approx) then
        let res := processFrame (drawContourVerts frame approx) rest
        (boundingRect approx :: res.1, res.2)
      else processFrame frame rest

/-- Observable events of the main loop, in program order. `toggle` is an
execution of `paused = not paused`; `sleepFor t` is `time.sleep(t)`;
`destroyPausedWin` is `cv2.destroyWindow('Paused - Press P to Resume')`;
`pollQuit` is the `cv2.waitKey(1)` quit-key check of the running branch. -/
inductive Ev
  | toggle
  | sleepFor (t : ℚ)
  | captureFrame
  | showPaused
  | showLive
  | runDetection
  | dispatchInput
  | activateWindow
  | destroyPausedWin
  | pollQuit
  deriving DecidableEq, Repr

/-- State of the main loop between polls.  `paused` is the script's global
flag; `ki` counts the `keyboard.is_pressed('p')` polls made so far (the
index into the key-reading stream — consecutive polls are separated by
the loop's sleeps, so no key activity between polls is observable);
`ti` counts completed running-branch ticks (the index into the
window-active and quit-key streams); `quitReq` records that the quit key
was seen, which terminates the loop. -/
structure LoopSt where
  paused : Bool
  ki : ℕ
  ti : ℕ
  quitReq : Bool
  deriving DecidableEq, Repr

/-- The initial loop state: `paused = False`, nothing polled yet. -/
def initSt : LoopSt := ⟨false, 0, 0, false⟩

/-- The inner `while paused:` busy-wait: poll `keyboard.is_pressed('p')`
repeatedly; on a pressed reading, execute `paused = False`,
`time.sleep(0.5)`, `cv2.destroyWindow(...)` and break.  `fuel` bounds the
number of polls modelled (the script itself spins unboundedly until a
pressed reading); returns the emitted events, the next poll index, and
the final value of `paused`. -/
def innerPausedLoop (keys : ℕ → Bool) : ℕ → ℕ → List Ev × ℕ × Bool
  | 0, i => ([], i, true)
  | fuel + 1, i =>
      if keys i then
        ([Ev.toggle, Ev.sleepFor (1/2), Ev.destroyPausedWin], i + 1, false)
      else
        innerPausedLoop keys fuel (i + 1)

/-- One iteration of the outer `while True:` loop.  First the toggle check:
`if keyboard.is_pressed('p'): paused = not paused; time.sleep(0.5)`.
Then either the paused branch (capture, show the paused preview, inner
busy-wait) or the running branch (activate the window if inactive,
capture, run detection with in-place annotation, show the live view, poll
the quit key, sleep 0.1).  `keys` is the stream of `is_pressed` readings,
`winActive` the stream of `window.isActive` readings and `quits` the
stream of quit-key readings, one per running tick. -/
def outerTick (keys : ℕ → Bool) (winActive quits : ℕ → Bool) (fuel : ℕ)
    (s : LoopSt) : List Ev × LoopSt :=
  let pressed := keys s.ki
  let i := s.ki + 1
  let evs0 := if pressed then [Ev.toggle, Ev.sleepFor (1/2)] else []
  let paused := if pressed then !s.paused else s.paused
  if paused then
    let r := innerPausedLoop keys fuel i
    (evs0 ++ [Ev.captureFrame, Ev.showPaused] ++ r.1,
     ⟨r.2.2, r.2.1, s.ti, false⟩)
  else
    let evsFocus :=
      if winActive s.ti then [] else [Ev.activateWindow, Ev.sleepFor (1/10)]
    (evs0 ++ evsFocus ++
       [Ev.captureFrame, Ev.runDetection, Ev.showLive, Ev.pollQuit,
        Ev.sleepFor (1/10)],
     ⟨false, i, s.ti + 1, quits s.ti⟩)

/-- Run `n` iterations of the outer loop, stopping when the quit key was
seen; concatenates the events of all iterations. -/
def runLoop (keys winActive quits : ℕ → Bool) (fuel : ℕ) :
    ℕ → LoopSt → List Ev × LoopSt
  | 0, s => ([], s)
  | n + 1, s =>
      if s.quitReq then ([], s)
      else
        let r := outerTick keys winActive quits fuel s
        let r' := runLoop keys winActive quits fuel n r.2
        (r.1 ++ r'.1, r'.2)

/-- Number of `toggle` events (state flips) in an event trace. -/
def countToggles (evs : List Ev) : ℕ := evs.count Ev.toggle

/-- The window data the script reads: position, size and focus state
(`pygetwindow` window attributes). -/
structure WindowData where
  left : ℤ
  top : ℤ
  width : ℤ
  height : ℤ
  deriving DecidableEq, Repr

/-- The error message raised when no window matches the title:
`f"ウィンドウ '{window_title}' が見つかりません"`. -/
def windowNotFoundMsg (window_title : String) : String :=
  "ウィンドウ '" ++ window_title ++ "' が見つかりません"

/-- `get_window_data(window_title)`: `gw.getWindowsWithTitle` is modelled
by its result `windows`; an empty result raises (modelled as `.error`),
otherwise the first window is taken and the centre computed with Python
floor division (`//`). -/
def get_window_data (windows : List WindowData) (window_title : String) :
    Except String (WindowData × ℤ × ℤ × ℤ × ℤ) :=
  match windows with
  | [] => Except.error (windowNotFoundMsg window_title)
  | window :: _ =>
      let width := window.width
      let height := window.height
      let center_x := window.left + Int.fdiv width 2
      let center_y := window.top + Int.fdiv height 2
      Except.ok (window, width, height, center_x, center_y)

/-- The whole program: resolve the window (aborting with the error message
when none is found — the only failing check), run the startup input
sequence, then the main loop.  Returns the startup input trace and the
loop's event trace. -/
def program (windows : List WindowData) (window_title : String)
    (keys winActive quits : ℕ → Bool) (fuel n : ℕ) :
    Except String (List InpEv × List Ev) :=
  match get_window_data windows window_title with
  | Except.error e => Except.error e
  | Except.ok (_, _, _, center_x, center_y) =>
      Except.ok (startupTrace center_x center_y,
        (runLoop keys winActive quits fuel n initSt).1)

/-! ## Theorems settling the claims -/

/-- C1: a candidate bounding rectangle computed from a simplified contour
is reported by the detector if and only if its aspect ratio `w/h` lies
strictly between `0.1` and `10.0`, its width exceeds 50 and its height
exceeds 50; a rectangle with `w ≤ 50`, `h ≤ 50`, or aspect ratio outside
`(0.1, 10.0)` is never reported. -/
theorem C1_filter_keeps_iff (approxContours : List (List Pt)) (r : Rect) :
    r ∈ detect approxContours ↔
      r ∈ approxContours.map boundingRect ∧
        ((1 : ℚ)/10 < (r.w : ℚ) / (r.h : ℚ) ∧ (r.w : ℚ) / (r.h : ℚ) < 10 ∧
         50 < r.w ∧ 50 < r.h) := by
  simp [detect, List.mem_filter, keepRect, aspect_ratio, and_assoc]

/-- C10: the bounding rectangle of any non-empty simplified contour has
width and height at least 1, so the aspect ratio `float(w) / h` never
divides by zero. -/
theorem C10_no_div_by_zero (approx : List Pt) (h : approx ≠ []) :
    1 ≤ (boundingRect approx).w ∧ 1 ≤ (boundingRect approx).h ∧
      (((boundingRect approx).h : ℚ)) ≠ 0 := by
  match approx with
  | [] => exact absurd rfl h
  | p :: ps =>
      refine ⟨by simp [boundingRect], by simp [boundingRect], ?_⟩
      simp only [boundingRect, ne_eq, Nat.cast_eq_zero]
      omega

/-- Witness for C10 at the one-point contour `[(3, 4)]`. -/
theorem C10_no_div_by_zero_witness :
    1 ≤ (boundingRect [⟨3, 4⟩]).w ∧ 1 ≤ (boundingRect [⟨3, 4⟩]).h ∧
      (((boundingRect [⟨3, 4⟩]).h : ℚ)) ≠ 0 :=
  C10_no_div_by_zero [⟨3, 4⟩] (by simp)

/-- C2 counterexample: a pixel with intensity exactly 200 is mapped to 0
("off") by `cv2.threshold(..., 200, 255, cv2.THRESH_BINARY)`, not to 255
("on") as the claim states. -/
theorem C2_cex_exactly_200_is_off :
    thresholdBinary 200 255 200 = 0 ∧ thresholdBinary 200 255 200 ≠ 255 := by
  decide

/-- C2 (amended): in the binarisation step, a pixel of the grayscale frame
becomes "on" (255) iff its intensity is **strictly greater** than the
threshold 200, and becomes "off" (0) iff its intensity is at most 200; in
particular a pixel with intensity exactly 200 is "off". -/
theorem C2_threshold_strict (gray_frame : List (List ℕ)) (i j v : ℕ)
    (hij : (gray_frame[i]?.bind fun row => row[j]?) = some v) :
    ((threshFrame gray_frame)[i]?.bind fun row => row[j]?) =
        some (if 200 < v then 255 else 0) ∧
      (thresholdBinary 200 255 v = 255 ↔ 200 < v) ∧
      (thresholdBinary 200 255 v = 0 ↔ v ≤ 200) := by
  refine ⟨?_, ?_, ?_⟩
  · unfold threshFrame
    cases hg : gray_frame[i]? with
    | none => simp [hg] at hij
    | some row =>
        simp only [hg, Option.some_bind] at hij
        cases hr : row[j]? with
        | none => simp [hr] at hij
        | some w =>
            simp only [hr] at hij
            cases hij
            simp [List.getElem?_map, hg, hr, thresholdBinary]
  · unfold thresholdBinary; split <;> simp <;> omega
  · unfold thresholdBinary; split <;> simp <;> omega

/-- Witness for C2 (amended) on the one-pixel grayscale frame `[[200]]`. -/
theorem C2_threshold_strict_witness :
    ((threshFrame [[200]])[0]?.bind fun row => row[0]?) =
        some (if 200 < 200 then 255 else 0) ∧
      (thresholdBinary 200 255 200 = 255 ↔ 200 < 200) ∧
      (thresholdBinary 200 255 200 = 0 ↔ 200 ≤ 200) :=
  C2_threshold_strict [[200]] 0 0 200 rfl

/-- C5: `press_button` first sleeps for the pre-delay, then performs
exactly one down event matching the button kind, sleeps for the hold
duration, and performs exactly one matching up event, in that order; for
the mouse kinds both events are at `(x, y)`. -/
theorem C5_dispatch_order (button_type : IrisuButton) (x y : ℤ)
    (pre hold : ℚ) :
    ∃ d u,
      press_button button_type x y pre hold =
        [InpEv.sleepEv pre, d, InpEv.sleepEv hold, u] ∧
      d.isDown = true ∧ u.isUp = true ∧ d.matchesUp u = true ∧
      (press_button button_type x y pre hold).countP InpEv.isDown = 1 ∧
      (press_button button_type x y pre hold).countP InpEv.isUp = 1 ∧
      (button_type ≠ IrisuButton.Esc →
        d.pos = some (x, y) ∧ u.pos = some (x, y)) := by
  cases button_type with
  | LClick =>
      exact ⟨InpEv.mouseDown "left" x y, InpEv.mouseUp "left" x y, rfl, rfl,
        rfl, by simp [InpEv.matchesUp],
        by simp [press_button, InpEv.isDown],
        by simp [press_button, InpEv.isUp],
        fun _ => ⟨rfl, rfl⟩⟩
  | RClick =>
      exact ⟨InpEv.mouseDown "right" x y, InpEv.mouseUp "right" x y, rfl, rfl,
        rfl, by simp [InpEv.matchesUp],
        by simp [press_button, InpEv.isDown],
        by simp [press_button, InpEv.isUp],
        fun _ => ⟨rfl, rfl⟩⟩
  | Esc =>
      exact ⟨InpEv.keyDown "esc", InpEv.keyUp "esc", rfl, rfl,
        rfl, by simp [InpEv.matchesUp],
        by simp [press_button, InpEv.isDown],
        by simp [press_button, InpEv.isUp],
        fun h => absurd rfl h⟩

/-- Witness for C5 at a left click at `(100, 200)` with a 1 s pre-delay
and 0.1 s hold. -/
theorem C5_dispatch_order_witness :
    ∃ d u,
      press_button IrisuButton.LClick 100 200 1 (1/10) =
        [InpEv.sleepEv 1, d, InpEv.sleepEv (1/10), u] ∧
      d.isDown = true ∧ u.isUp = true ∧ d.matchesUp u = true ∧
      (press_button IrisuButton.LClick 100 200 1 (1/10)).countP
        InpEv.isDown = 1 ∧
      (press_button IrisuButton.LClick 100 200 1 (1/10)).countP
        InpEv.isUp = 1 ∧
      (IrisuButton.LClick ≠ IrisuButton.Esc →
        d.pos = some (100, 200) ∧ u.pos = some (100, 200)) :=
  C5_dispatch_order IrisuButton.LClick 100 200 1 (1/10)

/-- C9: dispatching an `Esc` action ignores the target coordinate — the
event trace is the same for any two coordinate pairs, for every pre-delay
and hold duration. -/
theorem C9_esc_ignores_coords (x1 y1 x2 y2 : ℤ) (pre hold : ℚ) :
    press_button IrisuButton.Esc x1 y1 pre hold =
      press_button IrisuButton.Esc x2 y2 pre hold := rfl

/-- C6: the first title-menu candidate is `(center_x, center_y + 20)` —
`(500, 420)` for a window centred at `(500, 400)` — and the startup
sequence dispatches exactly one left-click down/up pair there, with a 1 s
pre-delay and 0.1 s hold, followed by the 3 s settle sleep, all before
the first iteration of the main loop. -/
theorem C6_startup_click (center_x center_y : ℤ) :
    (irisu_get_title_pos center_x center_y).headI =
        (center_x, center_y + 20) ∧
      startupTrace 500 400 =
        [InpEv.sleepEv 1, InpEv.mouseDown "left" 500 420,
         InpEv.sleepEv (1/10), InpEv.mouseUp "left" 500 420,
         InpEv.sleepEv 3] ∧
      (startupTrace center_x center_y).countP InpEv.isDown = 1 := by
  refine ⟨rfl, rfl, ?_⟩
  simp [startupTrace, press_button, irisu_get_title_pos, InpEv.isDown]

/-- If no pressed reading occurs from poll index `i` on, the inner paused
busy-wait emits no events, consumes all its fuel in polls and stays
paused. -/
theorem innerPausedLoop_no_press (keys : ℕ → Bool) (fuel : ℕ) :
    ∀ i, (∀ j, i ≤ j → keys j = false) →
      innerPausedLoop keys fuel i = ([], i + fuel, true) := by
  induction fuel with
  | zero => intro i _; rfl
  | succ fuel ih =>
      intro i h
      have hk : keys i = false := h i le_rfl
      have hrec := ih (i + 1) (fun j hj => h j (by omega))
      simp only [innerPausedLoop, hk, Bool.false_eq_true, if_false, hrec]
      have : i + 1 + fuel = i + (fuel + 1) := by omega
      rw [this]

/-- Every event of the inner paused busy-wait is a toggle, the debounce
sleep, or the disposal of the paused preview window. -/
theorem innerPausedLoop_events (keys : ℕ → Bool) (fuel : ℕ) :
    ∀ i, ∀ e ∈ (innerPausedLoop keys fuel i).1,
      e = Ev.toggle ∨ e = Ev.sleepFor (1/2) ∨ e = Ev.destroyPausedWin := by
  induction fuel with
  | zero => intro i e he; simp [innerPausedLoop] at he
  | succ fuel ih =>
      intro i e he
      cases hk : keys i with
      | true =>
          simp only [innerPausedLoop, hk, if_true] at he
          simp only [List.mem_cons, List.mem_singleton, List.not_mem_nil] at he
          tauto
      | false =>
          simp only [innerPausedLoop, hk, Bool.false_eq_true, if_false] at he
          exact ih (i + 1) e he

/-- If the inner paused busy-wait ends unpaused, it observed a press: it
emits events and its last event is the disposal of the paused preview
window. -/
theorem innerPausedLoop_unpause (keys : ℕ → Bool) (fuel : ℕ) :
    ∀ i, (innerPausedLoop keys fuel i).2.2 = false →
      (innerPausedLoop keys fuel i).1 ≠ [] ∧
        (innerPausedLoop keys fuel i).1.getLast? =
          some Ev.destroyPausedWin := by
  induction fuel with
  | zero => intro i h; simp [innerPausedLoop] at h
  | succ fuel ih =>
      intro i h
      cases hk : keys i with
      | true => simp [innerPausedLoop, hk]
      | false =>
          simp only [innerPausedLoop, hk, Bool.false_eq_true, if_false] at h ⊢
          exact ih (i + 1) h

/-- C3 counterexample: with the toggle key pressed once and then held
continuously (every poll reads it pressed), a single iteration of the
loop from `Running` flips the state **twice** — once at the outer check
and once in the inner paused busy-wait — ending back in `Running`, so the
state does not flip exactly once. -/
theorem C3_cex_held_key_flips_twice :
    countToggles
        (outerTick (fun _ => true) (fun _ => true) (fun _ => false) 1
          initSt).1 = 2 ∧
      (outerTick (fun _ => true) (fun _ => true) (fun _ => false) 1
          initSt).2.paused = false := by
  decide

/-- C3 (amended): the pause toggle is level-triggered with a 0.5 s
debounce sleep, not edge-triggered.  Each poll that reads the key as
pressed flips the state (no poll can occur during the debounce sleep, so
presses confined to that window are unobserved).  A press observed by
exactly one poll flips the state exactly once (`Running` to `Paused`);
a key pressed once and then held across the polls flips the state twice
within one iteration, returning to `Running`; a tick polling only
released readings never flips the state. -/
theorem C3_level_triggered (fuel : ℕ) (hfuel : 0 < fuel)
    (winActive quits : ℕ → Bool) :
    (countToggles
        (outerTick (fun i => i == 0) winActive quits fuel initSt).1 = 1 ∧
      (outerTick (fun i => i == 0) winActive quits fuel initSt).2.paused =
        true) ∧
    (countToggles
        (outerTick (fun _ => true) winActive quits fuel initSt).1 = 2 ∧
      (outerTick (fun _ => true) winActive quits fuel initSt).2.paused =
        false) ∧
    (∀ s : LoopSt,
      countToggles (outerTick (fun _ => false) winActive quits fuel s).1 =
        0) := by
  refine ⟨?_, ?_, ?_⟩
  · have hno : ∀ j, 1 ≤ j → ((j == 0) = false) := by
      intro j hj
      simp only [beq_eq_false_iff_ne, ne_eq]
      omega
    have h1 := innerPausedLoop_no_press (fun i => i == 0) fuel 1 hno
    simp [outerTick, initSt, h1, countToggles, List.count_cons,
      List.count_append, List.count_nil]
  · obtain ⟨f, rfl⟩ : ∃ f, fuel = f + 1 := ⟨fuel - 1, by omega⟩
    have hin : innerPausedLoop (fun _ => true) (f + 1) 1 =
        ([Ev.toggle, Ev.sleepFor (1/2), Ev.destroyPausedWin], 2, false) := by
      simp [innerPausedLoop]
    simp [outerTick, initSt, hin, countToggles, List.count_cons,
      List.count_append, List.count_nil]
  · intro s
    cases hp : s.paused with
    | true =>
        have h1 := innerPausedLoop_no_press (fun _ => false) fuel (s.ki + 1)
          (fun _ _ => rfl)
        simp [outerTick, hp, h1, countToggles, List.count_cons,
          List.count_append, List.count_nil]
    | false =>
        cases hw : winActive s.ti with
        | true =>
            simp [outerTick, hp, hw, countToggles, List.count_cons,
              List.count_append, List.count_nil]
        | false =>
            simp [outerTick, hp, hw, countToggles, List.count_cons,
              List.count_append, List.count_nil]

/-- Witness for C3 (amended) at `fuel = 1`. -/
theorem C3_level_triggered_witness :
    0 < 1 ∧
      countToggles
        (outerTick (fun i => i == 0) (fun _ => true) (fun _ => false) 1
          initSt).1 = 1 :=
  ⟨by decide,
   (C3_level_triggered 1 (by decide) (fun _ => true) (fun _ => false)).1.1⟩

/-- C4: any iteration whose state after the toggle check is `Paused`
captures a frame, shows it on the paused preview sink, never runs
detection, never dispatches synthetic input, never shows the live view,
and — when the iteration ends back in `Running` — its very last event is
the disposal of the paused preview window, so disposal precedes every
event of the resumed automation. -/
theorem C4_paused_tick_behaviour (keys winActive quits : ℕ → Bool)
    (fuel : ℕ) (s : LoopSt)
    (hp : (if keys s.ki then !s.paused else s.paused) = true) :
    Ev.captureFrame ∈ (outerTick keys winActive quits fuel s).1 ∧
    Ev.showPaused ∈ (outerTick keys winActive quits fuel s).1 ∧
    Ev.runDetection ∉ (outerTick keys winActive quits fuel s).1 ∧
    Ev.dispatchInput ∉ (outerTick keys winActive quits fuel s).1 ∧
    Ev.showLive ∉ (outerTick keys winActive quits fuel s).1 ∧
    ((outerTick keys winActive quits fuel s).2.paused = false →
      (outerTick keys winActive quits fuel s).1.getLast? =
        some Ev.destroyPausedWin) := by
  have hinner := innerPausedLoop_events keys fuel (s.ki + 1)
  have hu := innerPausedLoop_unpause keys fuel (s.ki + 1)
  have hform :
      (outerTick keys winActive quits fuel s).1 =
        (if keys s.ki then [Ev.toggle, Ev.sleepFor (1/2)] else []) ++
          [Ev.captureFrame, Ev.showPaused] ++
          (innerPausedLoop keys fuel (s.ki + 1)).1 ∧
      (outerTick keys winActive quits fuel s).2.paused =
        (innerPausedLoop keys fuel (s.ki + 1)).2.2 := by
    simp only [outerTick, hp, if_true]
    constructor <;> first | rfl | trivial
  rw [hform.1, hform.2]
  refine ⟨by simp, by simp, ?_, ?_, ?_, ?_⟩
  · intro habs
    rcases List.mem_append.mp habs with h12 | h3
    · rcases List.mem_append.mp h12 with h1 | h2
      · cases hk : keys s.ki <;> rw [hk] at h1 <;> simp at h1
      · simp at h2
    · rcases hinner _ h3 with h' | h' | h' <;> simp at h'
  · intro habs
    rcases List.mem_append.mp habs with h12 | h3
    · rcases List.mem_append.mp h12 with h1 | h2
      · cases hk : keys s.ki <;> rw [hk] at h1 <;> simp at h1
      · simp at h2
    · rcases hinner _ h3 with h' | h' | h' <;> simp at h'
  · intro habs
    rcases List.mem_append.mp habs with h12 | h3
    · rcases List.mem_append.mp h12 with h1 | h2
      · cases hk : keys s.ki <;> rw [hk] at h1 <;> simp at h1
      · simp at h2
    · rcases hinner _ h3 with h' | h' | h' <;> simp at h'
  · intro hdone
    rw [List.getLast?_append_of_ne_nil _ (hu hdone).1]
    exact (hu hdone).2

/-- Witness for C4: entering the paused branch from `Running` with the key
pressed and one unit of inner fuel. -/
theorem C4_paused_tick_behaviour_witness :
    Ev.runDetection ∉
      (outerTick (fun _ => true) (fun _ => true) (fun _ => false) 1
        initSt).1 :=
  (C4_paused_tick_behaviour (fun _ => true) (fun _ => true) (fun _ => false)
    1 initSt (by decide)).2.2.1

/-- The rectangles reported by the contour loop are exactly `detect` of the
simplified contours, independent of the frame buffer being annotated. -/
theorem processFrame_fst (approxContours : List (List Pt)) :
    ∀ frame : Frame, (processFrame frame approxContours).1 =
      detect approxContours := by
  induction approxContours with
  | nil => intro frame; simp [processFrame, detect]
  | cons a rest ih =>
      intro frame
      cases hk : keepRect (boundingRect a) with
      | true => simp [processFrame, detect, hk, ih, List.filter_cons]
      | false => simp [processFrame, detect, hk, ih, List.filter_cons]

/-- When no contour passes the filter, the contour loop leaves the frame
untouched. -/
theorem processFrame_snd_of_none_kept (approxContours : List (List Pt)) :
    ∀ frame : Frame,
      (∀ approx ∈ approxContours,
        keepRect (boundingRect approx) = false) →
      (processFrame frame approxContours).2 = frame := by
  induction approxContours with
  | nil => intro frame _; rfl
  | cons a rest ih =>
      intro frame h
      have ha : keepRect (boundingRect a) = false := h a (by simp)
      simp only [processFrame, ha, Bool.false_eq_true, if_false]
      exact ih frame (fun c hc => h c (by simp [hc]))

/-- C7 counterexample: on a one-pixel all-white frame, a simplified
contour whose bounding rectangle passes the filter makes the loop draw
the green annotation into the frame buffer itself
(`cv2.drawContours(frame, ...)`), so the frame **is** mutated. -/
theorem C7_cex_annotation_mutates_frame :
    (processFrame [[(255, 255, 255)]]
        [[⟨0, 0⟩, ⟨59, 0⟩, ⟨59, 59⟩, ⟨0, 59⟩]]).2 ≠ [[(255, 255, 255)]] := by
  have hk : keepRect (boundingRect [⟨0, 0⟩, ⟨59, 0⟩, ⟨59, 59⟩, ⟨0, 59⟩]) =
      true := by
    norm_num [keepRect, aspect_ratio, boundingRect]
  simp [processFrame, hk, drawContourVerts, setPixel]

/-- C7 (amended): the mathematical detection steps are a pure function of
the simplified contours — the reported rectangles do not depend on the
frame buffer, and a repeated run over the same contours yields the same
rectangles — and the frame is left unmodified when no contour passes the
filter; but when a contour passes, the loop annotates the original frame
in place rather than a copy (see the counterexample). -/
theorem C7_detection_results_pure (frame frame2 : Frame)
    (approxContours : List (List Pt)) :
    (processFrame frame approxContours).1 = detect approxContours ∧
    (processFrame frame approxContours).1 =
      (processFrame frame2 approxContours).1 ∧
    ((∀ approx ∈ approxContours,
        keepRect (boundingRect approx) = false) →
      (processFrame frame approxContours).2 = frame) :=
  ⟨processFrame_fst approxContours frame,
   (processFrame_fst approxContours frame).trans
     (processFrame_fst approxContours frame2).symm,
   processFrame_snd_of_none_kept approxContours frame⟩

/-- Witness for C7 (amended): a tiny contour (bounding box 1×1) fails the
filter and the frame survives unchanged. -/
theorem C7_detection_results_pure_witness :
    (processFrame [[(7, 7, 7)]] [[⟨0, 0⟩]]).2 = [[(7, 7, 7)]] :=
  (C7_detection_results_pure [[(7, 7, 7)]] [[(7, 7, 7)]] [[⟨0, 0⟩]]).2.2
    (by
      intro a ha
      simp only [List.mem_singleton] at ha
      subst ha
      norm_num [keepRect, aspect_ratio, boundingRect])

/-- C8: when no window with the configured title exists, the program
aborts before the startup input and the tick loop with the error message
naming the missing window title; when at least one window exists, startup
proceeds — the window-existence check is the only check that can fail. -/
theorem C8_window_not_found_fatal (windows : List WindowData)
    (window_title : String) (keys winActive quits : ℕ → Bool) (fuel n : ℕ) :
    (windows = [] →
      program windows window_title keys winActive quits fuel n =
        Except.error
          ("ウィンドウ '" ++ window_title ++ "' が見つかりません")) ∧
    (windows ≠ [] →
      ∃ traces,
        program windows window_title keys winActive quits fuel n =
          Except.ok traces) := by
  constructor
  · rintro rfl
    rfl
  · intro h
    match windows, h with
    | w :: ws, _ => exact ⟨_, rfl⟩

/-- Witness for C8: no window found for the configured title aborts with
the message naming it; a found window starts up normally. -/
theorem C8_window_not_found_fatal_witness :
    program [] "irisu syndrome" (fun _ => false) (fun _ => false)
        (fun _ => false) 0 0 =
      Except.error
        ("ウィンドウ '" ++ "irisu syndrome" ++ "' が見つかりません") ∧
    ∃ traces,
      program [⟨0, 0, 640, 480⟩] "irisu syndrome" (fun _ => false)
          (fun _ => false) (fun _ => false) 0 0 =
        Except.ok traces :=
  ⟨(C8_window_not_found_fatal [] "irisu syndrome" (fun _ => false)
      (fun _ => false) (fun _ => false) 0 0).1 rfl,
   (C8_window_not_found_fatal [⟨0, 0, 640, 480⟩] "irisu syndrome"
      (fun _ => false) (fun _ => false) (fun _ => false) 0 0).2
     (by simp)⟩
